import Mathlib

/-!
Verification development for `franka/archive/franka_control_ros_broken.py`,
a thin Python wrapper that shells out to external binaries to move a Franka
robot arm and query its joint positions.

The module is embedded shallowly:

* A Python value of the fragment the module manipulates is a `PyArg`
  (method arguments) or `PyVal` (parsed literal).
* An uncaught Python exception is an `Except.error` of a `PyError`.
* A method call is a function from the instance plus the environment's
  behaviour (the query subprocess's decoded standard output, or the motion
  subprocess's exit code) to a `CallResult`: the instance state after the
  call, the list of subprocess commands invoked, the lines printed to the
  console, and the returned value or uncaught exception.
* Name resolution of the module's global names and of attributes of
  `FrankaControl` instances is made explicit through the tables
  `moduleGlobals` and `frankaControlAttrs`, transcribed from the source:
  the source never imports `ast`, never defines `FrankaRos`, and defines no
  method `get_end_effector_pos`, which drives the behaviour of
  `get_joint_positions`, `example_position` and `test_position`.

Floating-point numbers are modelled as rationals; every numeric literal
appearing in this development is exactly representable, so no rounding
behaviour is lost on the inputs considered.
-/

/-- A Python exception of the kinds this module can raise. -/
inductive PyError where
  /-- `NameError`: an unbound global name was referenced. -/
  | nameError (name : String)
  /-- `AttributeError`: an object has no attribute of this name. -/
  | attributeError (name : String)
  /-- `ValueError` with its message. -/
  | valueError (msg : String)
  /-- `TypeError`: e.g. `float()` applied to a list or `None`. -/
  | typeError
  /-- `SyntaxError`/`ValueError` raised by `ast.literal_eval` on input that
  is not a well-formed literal. -/
  | syntaxError
  /-- `IndexError`: sequence index out of range (also NumPy's error for
  indexing a non-rectangular array with two indices). -/
  | indexError
deriving DecidableEq, Repr

/-- A Python value produced by `ast.literal_eval` on the output lines of the
query executable: a number, or a flat list of numbers.  (The executable
emits lines such as `[0.5, 0.1, ..., 1]`; nested or non-numeric literals
never arise and are modelled as `syntaxError` by `literal_eval`.) -/
inductive PyVal where
  | num (q : ℚ)
  | list (row : List ℚ)
deriving DecidableEq, Repr

/-- A Python value passed as an argument to the motion methods:
a number (int or float), a string, a list, or `None`. -/
inductive PyArg where
  | num (q : ℚ)
  | str (s : String)
  | list (xs : List PyArg)
  | none
deriving Repr

/-! ### String utilities: splitting and numeric parsing

Python's `str.split("\n")` and the numeric fragment of `ast.literal_eval`
and `float()` are modelled over `List Char` with structural recursion. -/

/-- Python's `s.split("\n")`: the maximal newline-free segments of `s`,
including empty ones (`"".split` is `[""]`, a trailing newline yields a
trailing `""`). -/
def splitNl : List Char → List (List Char)
  | [] => [[]]
  | c :: rest =>
    if c = '\n' then [] :: splitNl rest
    else
      match splitNl rest with
      | [] => [[c]]
      | l :: ls => (c :: l) :: ls

/-- `decoded_output.split("\n")` (source line 68). -/
def splitLines (s : String) : List String :=
  (splitNl s.data).map String.mk

/-- Drop leading spaces and tabs (Python literals and `float()` accept
surrounding whitespace). -/
def skipSpaces : List Char → List Char
  | [] => []
  | c :: rest => if c = ' ' ∨ c = '\t' then skipSpaces rest else c :: rest

/-- Split a leading run of decimal digits off a character list. -/
def takeDigits : List Char → List Char × List Char
  | [] => ([], [])
  | c :: rest =>
    if c.isDigit then
      let p := takeDigits rest
      (c :: p.1, p.2)
    else ([], c :: rest)

/-- Numeric value of a digit string (most significant digit first). -/
def natOfDigits (ds : List Char) : ℕ :=
  ds.foldl (fun a c => a * 10 + (c.toNat - '0'.toNat)) 0

/-- Parse a leading decimal numeral `[-]digits[.digits]` as an exact
rational, returning the remaining characters.  This is the numeric grammar
of the query executable's output lines; exponent forms never occur there
and are outside the modelled fragment. -/
def parseNumber (cs : List Char) : Option (ℚ × List Char) :=
  let sp : Bool × List Char := match cs with
    | '-' :: r => (true, r)
    | _ => (false, cs)
  let ip := takeDigits sp.2
  match ip.2 with
  | '.' :: afterDot =>
    let fp := takeDigits afterDot
    if ip.1.isEmpty ∧ fp.1.isEmpty then none
    else
      let mag : ℚ :=
        mkRat (Int.ofNat (natOfDigits ip.1 * 10 ^ fp.1.length + natOfDigits fp.1))
          (10 ^ fp.1.length)
      some (if sp.1 then Rat.neg mag else mag, fp.2)
  | rest =>
    if ip.1.isEmpty then none
    else
      let mag : ℚ := mkRat (Int.ofNat (natOfDigits ip.1)) 1
      some (if sp.1 then Rat.neg mag else mag, rest)

/-- Parse the comma-separated numeric elements of a list literal up to and
including the closing `]`.  Fuel bounds the recursion; each step consumes
at least one character, so `length + 1` fuel always suffices. -/
def parseElems : ℕ → List Char → Option (List ℚ × List Char)
  | 0, _ => Option.none
  | fuel + 1, cs =>
    match parseNumber (skipSpaces cs) with
    | Option.none => Option.none
    | some (q, rest) =>
      match skipSpaces rest with
      | ']' :: r2 => some ([q], r2)
      | ',' :: r2 =>
        match parseElems fuel r2 with
        | some (qs, r3) => some (q :: qs, r3)
        | Option.none => Option.none
      | _ => Option.none

/-- Model of `ast.literal_eval` on the fragment the module can receive: a
flat list literal of decimal numerals, or a bare numeral.  Anything else —
including the empty string produced by a trailing newline — raises
(`SyntaxError`/`ValueError`), modelled as `PyError.syntaxError`. -/
def literal_eval (s : String) : Except PyError PyVal :=
  match skipSpaces s.data with
  | '[' :: rest =>
    match skipSpaces rest with
    | ']' :: r2 =>
      if (skipSpaces r2).isEmpty then .ok (.list []) else .error .syntaxError
    | cs =>
      match parseElems (cs.length + 1) cs with
      | some (qs, r3) =>
        if (skipSpaces r3).isEmpty then .ok (.list qs) else .error .syntaxError
      | Option.none => .error .syntaxError
  | cs =>
    match parseNumber cs with
    | some (q, rest) =>
      if (skipSpaces rest).isEmpty then .ok (.num q) else .error .syntaxError
    | Option.none => .error .syntaxError

/-! ### The module's name tables (source lines 7–15 and 18–169) -/

/-- The global names the module binds: its imports (`print_function` from
`__future__`, `subprocess`, `os`, `sys`, `argparse`, `numpy as np`), the
conditional `input` alias, and its top-level definitions.  `ast` and
`FrankaRos` are not among them. -/
def moduleGlobals : List String :=
  ["print_function", "subprocess", "os", "sys", "argparse", "np", "input",
   "FrankaControl", "test_motion", "example_position", "test_position"]

/-- Python global-name lookup in this module: `NameError` when the name is
unbound. -/
def lookupGlobal (name : String) : Except PyError String :=
  if moduleGlobals.contains name then .ok name
  else .error (.nameError name)

/-- Evaluating the expression `ast.literal_eval(x)` as the module is
written (source line 73): the name `ast` is looked up first and is unbound,
so every evaluation raises `NameError('ast')` before any parsing. -/
def eval_ast_literal_eval (x : String) : Except PyError PyVal :=
  match lookupGlobal "ast" with
  | .error e => .error e
  | .ok _ => literal_eval x

/-- The attributes a `FrankaControl` instance has: the fields set in
`__init__` and the methods of the class body.  There is no
`get_end_effector_pos`. -/
def frankaControlAttrs : List String :=
  ["ip_address", "debug", "path",
   "get_position", "get_joint_positions", "move_relative", "move_absolute"]

/-! ### The controller and the shape of a method call -/

/-- The state of a `FrankaControl` instance: the three attributes set by
`__init__` (source lines 26–29). -/
structure FrankaControl where
  ip_address : String
  debug : Bool
  path : String
deriving DecidableEq, Repr

/-- Python attribute lookup on a `FrankaControl` instance:
`AttributeError` when neither the instance nor the class defines the
name. -/
def getattr (_ : FrankaControl) (name : String) : Except PyError String :=
  if frankaControlAttrs.contains name then .ok name
  else .error (.attributeError name)

/-- Default value of the `ip` parameter of `__init__` (source line 26). -/
def defaultIp : String := "192.168.0.88"

/-- Default value of the `debug_flag` parameter of `__init__`. -/
def defaultDebugFlag : Bool := false

/-- `FrankaControl.__init__` (source lines 26–29).  `path` stands for
`os.path.dirname(os.path.realpath(__file__))`, a value of the environment,
passed as a parameter. -/
def FrankaControl.init (path ip : String) (debug_flag : Bool) : FrankaControl :=
  { ip_address := ip, debug := debug_flag, path := path }

/-- A `FrankaControl(...)` construction with both arguments left to their
defaults. -/
def initDefault (path : String) : FrankaControl :=
  FrankaControl.init path defaultIp defaultDebugFlag

instance {ε α : Type} [DecidableEq ε] [DecidableEq α] : DecidableEq (Except ε α) := fun x y =>
  match x, y with
  | .ok a, .ok b =>
    if h : a = b then isTrue (h ▸ rfl) else isFalse (fun hc => h (Except.ok.inj hc))
  | .error a, .error b =>
    if h : a = b then isTrue (h ▸ rfl) else isFalse (fun hc => h (Except.error.inj hc))
  | .ok _, .error _ => isFalse (fun hc => Except.noConfusion hc)
  | .error _, .ok _ => isFalse (fun hc => Except.noConfusion hc)

/-- The observable outcome of one method call: the instance after the call,
the commands handed to `subprocess` in order, the lines printed, and the
returned value (`Except.ok`) or uncaught exception (`Except.error`). -/
structure CallResult (α : Type) where
  self : FrankaControl
  calls : List (List String)
  prints : List String
  result : Except PyError α
deriving DecidableEq, Repr

/-- Python's `print(a, b)` with two arguments: joined by one space. -/
def print2 (a b : String) : String := a ++ " " ++ b

/-! ### `get_joint_positions` and `get_position` (source lines 31–77) -/

/-- The parsing loop of `get_joint_positions` (source lines 70–77):
`for idx, lit in enumerate(string_list): x = ast.literal_eval(lit);
converted_list.append(x); if idx == 7: break`.  `ev` is the evaluation of
the expression `ast.literal_eval(lit)`; an exception from it propagates
out of the loop. -/
def jointLoop (ev : String → Except PyError PyVal) :
    List String → ℕ → List PyVal → Except PyError (List PyVal)
  | [], _, acc => .ok acc.reverse
  | lit :: rest, idx, acc =>
    match ev lit with
    | .error e => .error e
    | .ok x =>
      if idx = 7 then .ok (acc.reverse ++ [x])
      else jointLoop ev rest (idx + 1) (x :: acc)

/-- `get_joint_positions` with the evaluation of `ast.literal_eval`
abstracted, so that the module as written and the module with the
missing import restored share the one transcription of the body (source
lines 40–77).  `out` is the query subprocess's decoded standard output. -/
def gjpWith (ev : String → Except PyError PyVal) (self : FrankaControl)
    (out : String) : CallResult (List PyVal) :=
  let program := "./get_joint_positions"
  let command := [program, self.ip_address]
  let command_str := String.intercalate " " command
  let dbg :=
    if self.debug then
      [print2 "Working directory: " self.path,
       print2 "Program: " program,
       print2 "IP Address of robot: " self.ip_address,
       print2 "Command being called: " command_str,
       "Running FRANKA code..."]
    else []
  let string_list := splitLines out
  { self := self, calls := [command], prints := dbg,
    result := jointLoop ev string_list 0 [] }

/-- `FrankaControl.get_joint_positions` as the module is written: the loop
body evaluates `ast.literal_eval` with `ast` unbound. -/
def get_joint_positions (self : FrankaControl) (out : String) :
    CallResult (List PyVal) :=
  gjpWith eval_ast_literal_eval self out

/-- `get_joint_positions` as the module's docstring and the spec intend it
(`import ast` restored): each line is parsed with the real
`ast.literal_eval`. -/
def get_joint_positions_intended (self : FrankaControl) (out : String) :
    CallResult (List PyVal) :=
  gjpWith literal_eval self out

/-- Whether `rows` is a rectangular table of list rows, so that
`np.array(rows)` is a 2-D array that two-index subscripting accepts. -/
def isTable : List PyVal → Bool
  | [] => true
  | .num _ :: _ => false
  | .list r :: rest =>
    rest.all fun v =>
      match v with
      | .list r2 => r2.length = r.length
      | .num _ => false

/-- Model of `joints = np.array(rows)` followed by
`[joints[7, 12], joints[7, 13], joints[7, 14]]` (source lines 36–37):
two-index subscripting succeeds only on a rectangular 2-D numeric array
with both indices in range; otherwise NumPy raises `IndexError` (a ragged
or flat input builds a 1-D object array, for which `[7, 12]` is "too many
indices"). -/
def npIndex3 (rows : List PyVal) : Except PyError (ℚ × ℚ × ℚ) :=
  if isTable rows then
    match rows.get? 7 with
    | some (.list r7) =>
      match r7.get? 12, r7.get? 13, r7.get? 14 with
      | some x, some y, some z => .ok (x, y, z)
      | _, _, _ => .error .indexError
    | _ => .error .indexError
  else .error .indexError

/-- `get_position` with the same abstraction over `ast.literal_eval` as
`gjpWith` (source lines 31–38): delegates to `get_joint_positions`, then
indexes row 7, columns 12–14. -/
def gposWith (ev : String → Except PyError PyVal) (self : FrankaControl)
    (out : String) : CallResult (ℚ × ℚ × ℚ) :=
  let r := gjpWith ev self out
  { self := r.self, calls := r.calls, prints := r.prints,
    result :=
      match r.result with
      | .error e => .error e
      | .ok rows => npIndex3 rows }

/-- `FrankaControl.get_position` as the module is written. -/
def get_position (self : FrankaControl) (out : String) :
    CallResult (ℚ × ℚ × ℚ) :=
  gposWith eval_ast_literal_eval self out

/-- `get_position` over the intended `get_joint_positions` (missing
`import ast` restored). -/
def get_position_intended (self : FrankaControl) (out : String) :
    CallResult (ℚ × ℚ × ℚ) :=
  gposWith literal_eval self out

/-! ### Float coercion and formatting -/

/-- Python's `float(s)` on a string: surrounding whitespace stripped, then
a full-string decimal numeral; otherwise `ValueError`.  (The message is the
constant prefix of CPython's message.) -/
def floatOfString (s : String) : Except PyError ℚ :=
  match parseNumber (skipSpaces s.data) with
  | some (q, rest) =>
    if (skipSpaces rest).isEmpty then .ok q
    else .error (.valueError "could not convert string to float")
  | Option.none => .error (.valueError "could not convert string to float")

/-- Python's `float(x)` on an argument value: numbers pass through,
strings are parsed (`ValueError` on failure), lists and `None` raise
`TypeError`. -/
def pyFloat : PyArg → Except PyError ℚ
  | .num q => .ok q
  | .str s => floatOfString s
  | .list _ => .error .typeError
  | .none => .error .typeError

/-- The tuple `float(a), float(b), float(c)`, evaluated left to right; the
first exception wins. -/
def floatTriple (a b c : PyArg) : Except PyError (ℚ × ℚ × ℚ) :=
  match pyFloat a with
  | .error e => .error e
  | .ok x =>
    match pyFloat b with
    | .error e => .error e
    | .ok y =>
      match pyFloat c with
      | .error e => .error e
      | .ok z => .ok (x, y, z)

/-- Strip trailing `'0'` characters. -/
def stripTrailingZeros (s : List Char) : List Char :=
  (s.reverse.dropWhile fun c => c = '0').reverse

/-- Left-pad with `'0'` to length `k`. -/
def padLeftZeros (k : ℕ) (s : List Char) : List Char :=
  List.replicate (k - s.length) '0' ++ s

/-- The least `k ≤ 30` with `d ∣ 10 ^ k`, when one exists (it does exactly
when `d` has only the prime factors 2 and 5, i.e. the value is a
terminating decimal; 30 covers every IEEE double). -/
def pow10Exp (d : ℕ) : Option ℕ :=
  (List.range 31).find? fun k => 10 ^ k % d = 0

/-- Python's `str()` on a float, modelled on rationals: the exact decimal
expansion with at least one integer and one fractional digit
(`str(0.0) = "0.0"`).  Python prints the shortest decimal that round-trips
to the same double; on terminating decimals as short as those handled
here the two coincide.  A rational that is not a terminating decimal is
outside the modelled fragment and is printed as a fraction. -/
def pyFloatStr (q : ℚ) : String :=
  let sign := if q < 0 then "-" else ""
  let n := q.num.natAbs
  let d := q.den
  if d = 1 then sign ++ toString n ++ ".0"
  else
    match pow10Exp d with
    | some k =>
      let scaled := n * (10 ^ k / d)
      let ip := scaled / 10 ^ k
      let fracDigits := stripTrailingZeros (padLeftZeros k (toString (scaled % 10 ^ k)).data)
      let fp := if fracDigits.isEmpty then "0" else String.mk fracDigits
      sign ++ toString ip ++ "." ++ fp
    | Option.none => sign ++ toString n ++ "/" ++ toString d

/-! ### `move_relative` and `move_absolute` (source lines 79–169)

The motion subprocess is modelled by its one observable: the exit code
`subprocess.call` returns, passed in as `exit_code`. -/

/-- Python default of each delta parameter of `move_relative`
(source line 79: `dx=0.0, dy=0.0, dz=0.0`). -/
def moveRelativeDefault : PyArg := .num 0

/-- `FrankaControl.move_relative` (source lines 79–119): coerce the three
deltas with `float` inside `try/except ValueError` (printing and returning
`None` on `ValueError`; any other exception, e.g. `TypeError`, propagates),
format them with `str`, invoke the motion executable, print a message on a
non-zero exit, and return the exit code. -/
def move_relative (self : FrankaControl) (dx dy dz : PyArg) (exit_code : ℤ) :
    CallResult (Option ℤ) :=
  match floatTriple dx dy dz with
  | .error (.valueError _) =>
    { self := self, calls := [], prints := ["Arguments are invalid: must be floats"],
      result := .ok Option.none }
  | .error e =>
    { self := self, calls := [], prints := [], result := .error e }
  | .ok (x, y, z) =>
    let dxs := pyFloatStr x
    let dys := pyFloatStr y
    let dzs := pyFloatStr z
    let program := "./franka_move_to_relative"
    let command := [program, self.ip_address, dxs, dys, dzs]
    let command_str := String.intercalate " " command
    let dbg :=
      if self.debug then
        [print2 "Working directory: " self.path,
         print2 "Program: " program,
         print2 "IP Address of robot: " self.ip_address,
         print2 "dx: " dxs,
         print2 "dy: " dys,
         print2 "dz: " dzs,
         print2 "Command being called: " command_str,
         "Running FRANKA code..."]
      else []
    let tail :=
      if exit_code = 0 then
        if self.debug then [print2 "No problems running " program] else []
      else [print2 "Python has registered a problem with " program]
    { self := self, calls := [command], prints := dbg ++ tail,
      result := .ok (some exit_code) }

/-- `FrankaControl.move_absolute` (source lines 121–169): raise
`ValueError` when more than three coordinates are given, index the first
three (Python's `coordinates[0], coordinates[1], coordinates[2]`, raising
`IndexError` on a shorter list), then proceed exactly as `move_relative`
with the absolute-motion executable. -/
def move_absolute (self : FrankaControl) (coordinates : List PyArg)
    (exit_code : ℤ) : CallResult (Option ℤ) :=
  if coordinates.length > 3 then
    { self := self, calls := [], prints := [],
      result := .error (.valueError "Invalid coordinates. There can only be three dimensions.") }
  else
    match coordinates.get? 0, coordinates.get? 1, coordinates.get? 2 with
    | some a, some b, some c =>
      (match floatTriple a b c with
       | .error (.valueError _) =>
         { self := self, calls := [], prints := ["Arguments are invalid: must be floats"],
           result := .ok Option.none }
       | .error e =>
         { self := self, calls := [], prints := [], result := .error e }
       | .ok (x, y, z) =>
         let xs := pyFloatStr x
         let ys := pyFloatStr y
         let zs := pyFloatStr z
         let program := "./franka_move_to_absolute"
         let command := [program, self.ip_address, xs, ys, zs]
         let command_str := String.intercalate " " command
         let dbg :=
           if self.debug then
             [print2 "Working directory: " self.path,
              print2 "Program: " program,
              print2 "IP Address of robot: " self.ip_address,
              print2 "Go to x: " xs,
              print2 "Go to y: " ys,
              print2 "Go to z: " zs,
              print2 "Command being called: " command_str,
              "Running FRANKA code..."]
           else []
         let tail :=
           if exit_code = 0 then
             if self.debug then [print2 "No problems running " program] else []
           else [print2 "Python has registered a problem with " program]
         { self := self, calls := [command], prints := dbg ++ tail,
           result := .ok (some exit_code) })
    | _, _, _ =>
      { self := self, calls := [], prints := [], result := .error .indexError }

/-! ### The CLI test functions (source lines 233–281) -/

/-- The mode the `__main__` block dispatches to (source lines 263–281):
the flags are tried in the order `-m`, `-p`, `-j`; with none set, a usage
hint is printed. -/
inductive CliMode where
  | motionTest
  | positionTest
  | jointTest
  | usageHint
deriving DecidableEq, Repr

/-- `if args.motion_test: test_motion() elif args.position_test:
test_position() elif args.joint_test: example_position() else: print(...)`. -/
def cliMode (motion position joint : Bool) : CliMode :=
  if motion then .motionTest
  else if position then .positionTest
  else if joint then .jointTest
  else .usageHint

/-- `test_position` (source lines 250–260): construct
`FrankaControl(debug_flag=True)`, then evaluate
`arm.get_end_effector_pos()` — an attribute lookup on the instance, which
defines no such name — and print the three coordinates of the result.
Returns the printed lines. -/
def test_position (path : String) : Except PyError (List String) :=
  match lookupGlobal "FrankaControl" with
  | .error e => .error e
  | .ok _ =>
    let arm := FrankaControl.init path defaultIp true
    match getattr arm "get_end_effector_pos" with
    | .error e => .error e
    | .ok _ => .ok []

/-- `example_position` (source lines 233–247): evaluate
`FrankaRos(debug=True)` — a lookup of the global name `FrankaRos`, which
the module never defines — then loop printing joint data forever.  The
loop is never reached; the name lookup on the first line raises. -/
def example_position : Except PyError (List String) :=
  match lookupGlobal "FrankaRos" with
  | .error e => .error e
  | .ok _ => .ok []

/-! ### Concrete inputs used by the closed theorems -/

/-- A controller at the default IP with debugging off; the path stands for
the directory of the module file. -/
def sampleSelf : FrankaControl := initDefault "/home/franka/DE3-ROB1-CHESS"

/-- Entry `i j` of a parsed joint table (`0` when out of range): the
spec's "row `i`, column `j`". -/
def rowEntry (rows : List PyVal) (i j : ℕ) : ℚ :=
  match rows.get? i with
  | some (.list r) => r.getD j 0
  | _ => 0

/-- A well-formed 8×16 query output with rows 0–6 carrying their row index
in column 0 and row 7 carrying a distinctive position triple in columns
12–14. -/
def tableOut : String :=
  String.intercalate "\n"
    ["[0,0,0,0,0,0,0,0,0,0,0,0,0,0,0,0]",
     "[1,0,0,0,0,0,0,0,0,0,0,0,0,0,0,0]",
     "[2,0,0,0,0,0,0,0,0,0,0,0,0,0,0,0]",
     "[3,0,0,0,0,0,0,0,0,0,0,0,0,0,0,0]",
     "[4,0,0,0,0,0,0,0,0,0,0,0,0,0,0,0]",
     "[5,0,0,0,0,0,0,0,0,0,0,0,0,0,0,0]",
     "[6,0,0,0,0,0,0,0,0,0,0,0,0,0,0,0]",
     "[0.5,0,0,0,0,0,0,0,0,0,0,0,7.5,-2.25,0.125,1]"]

/-- The table `tableOut` denotes. -/
def tableRows : List PyVal :=
  [.list [0, 0, 0, 0, 0, 0, 0, 0, 0, 0, 0, 0, 0, 0, 0, 0],
   .list [1, 0, 0, 0, 0, 0, 0, 0, 0, 0, 0, 0, 0, 0, 0, 0],
   .list [2, 0, 0, 0, 0, 0, 0, 0, 0, 0, 0, 0, 0, 0, 0, 0],
   .list [3, 0, 0, 0, 0, 0, 0, 0, 0, 0, 0, 0, 0, 0, 0, 0],
   .list [4, 0, 0, 0, 0, 0, 0, 0, 0, 0, 0, 0, 0, 0, 0, 0],
   .list [5, 0, 0, 0, 0, 0, 0, 0, 0, 0, 0, 0, 0, 0, 0, 0],
   .list [6, 0, 0, 0, 0, 0, 0, 0, 0, 0, 0, 0, 0, 0, 0, 0],
   .list [mkRat 1 2, 0, 0, 0, 0, 0, 0, 0, 0, 0, 0, 0,
          mkRat 15 2, mkRat (-9) 4, mkRat 1 8, 1]]

/-- The spec's mock query output: 8 lines, each
`[0,0,0,0,0,0,0,0,0,0,0,0,1.0,2.0,3.0,1]`. -/
def mockOut : String :=
  String.intercalate "\n"
    (List.replicate 8 "[0,0,0,0,0,0,0,0,0,0,0,0,1.0,2.0,3.0,1]")

/-! ### Helper lemmas -/

/-- `split` never yields an empty list of segments: even `""` splits to
`[""]`. -/
theorem splitNl_ne_nil (cs : List Char) : splitNl cs ≠ [] := by
  induction cs with
  | nil => simp [splitNl]
  | cons c rest ih =>
    simp only [splitNl]
    split
    · simp
    · split <;> simp

/-- As the module is written, evaluating `ast.literal_eval(x)` raises
`NameError('ast')` for every argument. -/
theorem eval_ast_literal_eval_err (x : String) :
    eval_ast_literal_eval x = .error (.nameError "ast") := rfl

/-! ### Claim theorems -/

/-- C4: for every instance and every subprocess output, `get_joint_positions`
fails with the unhandled `NameError` on the name `ast` (which the module
never imports), and `get_position` fails the same way; neither ever returns
a value to the caller. -/
theorem c4_always_name_error (self : FrankaControl) (out : String) :
    (get_joint_positions self out).result = .error (.nameError "ast") ∧
    (get_position self out).result = .error (.nameError "ast") := by
  obtain ⟨l, ls, hsplit⟩ : ∃ l ls, splitLines out = l :: ls := by
    unfold splitLines
    cases h : splitNl out.data with
    | nil => exact absurd h (splitNl_ne_nil _)
    | cons a as => exact ⟨String.mk a, as.map String.mk, by simp⟩
  have hj : (get_joint_positions self out).result = .error (.nameError "ast") := by
    show jointLoop eval_ast_literal_eval (splitLines out) 0 [] = _
    rw [hsplit]
    simp [jointLoop, eval_ast_literal_eval_err]
  refine ⟨hj, ?_⟩
  have hp : (get_position self out).result =
      match (get_joint_positions self out).result with
      | .error e => .error e
      | .ok rows => npIndex3 rows := rfl
  rw [hp, hj]

/-- C1: refuted as a statement about the module as written — at the
one-line output `"[1,2]"` (fewer than 8 parseable lines)
`get_joint_positions` raises `NameError('ast')`, not a parse error, and
with the missing `import ast` restored it returns the one-row list
`[[1, 2]]` silently instead of failing, contradicting both halves of the
claim.  The spec (its §3 invariant and §7) states the intended behaviour;
the code's missing import and missing row-count check are the slip. -/
theorem c1_short_output_not_parse_error :
    (get_joint_positions sampleSelf "[1,2]").result = .error (.nameError "ast") ∧
    (get_joint_positions_intended sampleSelf "[1,2]").result = .ok [PyVal.list [1, 2]] ∧
    ([PyVal.list [1, 2]] : List PyVal).length < 8 :=
  ⟨rfl, rfl, by decide⟩

/-- C3: at the mock output of 8 lines of
`[0,0,0,0,0,0,0,0,0,0,0,0,1.0,2.0,3.0,1]`, `get_position` as written
raises `NameError('ast')` instead of returning anything; with the missing
`import ast` restored it returns exactly the pose `(1.0, 2.0, 3.0)` the
claim describes. -/
theorem c3_mock_output_pose :
    (get_position sampleSelf mockOut).result = .error (.nameError "ast") ∧
    (get_position_intended sampleSelf mockOut).result = .ok (1, 2, 3) :=
  ⟨rfl, by decide⟩

/-- C2: at the well-formed 8×16 output `tableOut`, `get_position` as
written raises `NameError('ast')` and returns no value, refuting the claim
about returned values; with the missing `import ast` restored,
`get_joint_positions` returns the table `tableRows` and `get_position`
returns exactly the triple (row 7, columns 12, 13, 14) of that table, the
relation the claim describes. -/
theorem c2_position_is_row7_cols_12_14 :
    (get_position sampleSelf tableOut).result = .error (.nameError "ast") ∧
    (get_joint_positions_intended sampleSelf tableOut).result = .ok tableRows ∧
    (get_position_intended sampleSelf tableOut).result =
      .ok (rowEntry tableRows 7 12, rowEntry tableRows 7 13, rowEntry tableRows 7 14) :=
  ⟨rfl, by decide, by decide⟩

/-- C5 counterexample: with `dx` an empty list — an argument that is not
numeric-coercible — `move_relative` does not return the `None` failure
sentinel the claim promises: the `TypeError` raised by `float([])` is not
caught by the `except ValueError` handler and propagates, so the method
returns no value at all (though indeed no subprocess is invoked). -/
theorem c5_no_sentinel_on_type_error :
    (move_relative sampleSelf (.list []) (.num 0) (.num 0) 0).result = .error .typeError ∧
    (move_relative sampleSelf (.list []) (.num 0) (.num 0) 0).result ≠ .ok Option.none ∧
    (move_relative sampleSelf (.list []) (.num 0) (.num 0) 0).calls = [] :=
  ⟨rfl, by decide, rfl⟩

/-- C5 amended: whenever coercing the three arguments with `float` raises,
neither `move_relative` nor `move_absolute` (given the three as its
coordinate list) invokes a subprocess; when the failure is a `ValueError`
(a non-numeric string) the method catches it, logs, and returns the `None`
sentinel — which is distinct from every integer exit code — while a
`TypeError` (an argument of non-coercible type, e.g. a list or `None`)
propagates uncaught instead of producing a sentinel. -/
theorem c5_no_subprocess_on_bad_args (self : FrankaControl) (a b c : PyArg)
    (ec : ℤ) (e : PyError) (h : floatTriple a b c = .error e) :
    (move_relative self a b c ec).calls = [] ∧
    (move_absolute self [a, b, c] ec).calls = [] ∧
    (∀ m, e = .valueError m →
      (move_relative self a b c ec).result = .ok Option.none ∧
      (move_absolute self [a, b, c] ec).result = .ok Option.none ∧
      ∀ code : ℤ, (Except.ok Option.none : Except PyError (Option ℤ)) ≠ .ok (some code)) ∧
    (e = .typeError →
      (move_relative self a b c ec).result = .error .typeError ∧
      (move_absolute self [a, b, c] ec).result = .error .typeError) := by
  cases e <;> simp_all [move_relative, move_absolute]

/-- C5 witness: concrete instance of the amended statement at the
non-numeric string `"abc"`. -/
theorem c5_no_subprocess_on_bad_args_witness :
    (move_relative sampleSelf (.str "abc") (.num 0) (.num 0) 7).calls = [] ∧
    (move_absolute sampleSelf [.str "abc", .num 0, .num 0] 7).calls = [] ∧
    (∀ m, (PyError.valueError "could not convert string to float") = .valueError m →
      (move_relative sampleSelf (.str "abc") (.num 0) (.num 0) 7).result = .ok Option.none ∧
      (move_absolute sampleSelf [.str "abc", .num 0, .num 0] 7).result = .ok Option.none ∧
      ∀ code : ℤ, (Except.ok Option.none : Except PyError (Option ℤ)) ≠ .ok (some code)) ∧
    ((PyError.valueError "could not convert string to float") = .typeError →
      (move_relative sampleSelf (.str "abc") (.num 0) (.num 0) 7).result = .error .typeError ∧
      (move_absolute sampleSelf [.str "abc", .num 0, .num 0] 7).result = .error .typeError) :=
  c5_no_subprocess_on_bad_args sampleSelf (.str "abc") (.num 0) (.num 0) 7
    (.valueError "could not convert string to float") (by decide)

/-- C6 counterexample: at the four-element coordinate list `[1, 2, 3, 4]`,
`move_absolute` does fail before any subprocess invocation, but not with a
locally recovered, logged failure: the `raise ValueError(...)` on the
length check propagates uncaught, and the method returns no value (a
recovered `InvalidArgument` would be the logged `None` return). -/
theorem c6_length_check_raises :
    (move_absolute sampleSelf [.num 1, .num 2, .num 3, .num 4] 0).result =
      .error (.valueError "Invalid coordinates. There can only be three dimensions.") ∧
    (move_absolute sampleSelf [.num 1, .num 2, .num 3, .num 4] 0).result ≠ .ok Option.none ∧
    (move_absolute sampleSelf [.num 1, .num 2, .num 3, .num 4] 0).calls = [] :=
  ⟨rfl, by decide, rfl⟩

/-- C6 amended: for every coordinate list whose length is not exactly 3,
`move_absolute` fails before any subprocess is invoked — but with an
uncaught exception, not a locally recovered one: the explicit
`ValueError` of the length check when more than three coordinates are
given, and the `IndexError` of `coordinates[2]` when fewer are given. -/
theorem c6_fails_before_subprocess (self : FrankaControl) (coords : List PyArg)
    (ec : ℤ) (h : coords.length ≠ 3) :
    (move_absolute self coords ec).calls = [] ∧
    (move_absolute self coords ec).result =
      .error (if 3 < coords.length
              then .valueError "Invalid coordinates. There can only be three dimensions."
              else .indexError) := by
  rcases coords with _ | ⟨a, _ | ⟨b, _ | ⟨c, rest⟩⟩⟩
  · simp [move_absolute]
  · simp [move_absolute]
  · simp [move_absolute]
  · cases rest with
    | nil => simp at h
    | cons dd rest2 => simp [move_absolute]

/-- C6 witness: concrete instance of the amended statement at the empty
coordinate list. -/
theorem c6_fails_before_subprocess_witness :
    (move_absolute sampleSelf [] 5).calls = [] ∧
    (move_absolute sampleSelf [] 5).result =
      .error (if 3 < ([] : List PyArg).length
              then .valueError "Invalid coordinates. There can only be three dimensions."
              else .indexError) :=
  c6_fails_before_subprocess sampleSelf [] 5 (by decide)

/-- C7: whenever the three deltas coerce to floats, `move_relative`
invokes the relative-motion executable once with the stringified deltas,
returns the subprocess's exit code to the caller without raising —
whatever that code is — and on a non-zero exit prints the failure
message. -/
theorem c7_returns_exit_code (self : FrankaControl) (a b c : PyArg) (ec : ℤ)
    (x y z : ℚ) (h : floatTriple a b c = .ok (x, y, z)) :
    (move_relative self a b c ec).result = .ok (some ec) ∧
    (move_relative self a b c ec).calls =
      [["./franka_move_to_relative", self.ip_address,
        pyFloatStr x, pyFloatStr y, pyFloatStr z]] ∧
    (ec ≠ 0 →
      print2 "Python has registered a problem with " "./franka_move_to_relative"
        ∈ (move_relative self a b c ec).prints) := by
  refine ⟨by simp [move_relative, h], by simp [move_relative, h],
    fun hec => by simp [move_relative, h, hec, print2]⟩

/-- C7 witness: concrete instance with deltas `(0.05, 0.0, 0.0)` and a
failing subprocess (exit code 1). -/
theorem c7_returns_exit_code_witness :
    (move_relative sampleSelf (.num (mkRat 1 20)) (.num 0) (.num 0) 1).result = .ok (some 1) ∧
    (move_relative sampleSelf (.num (mkRat 1 20)) (.num 0) (.num 0) 1).calls =
      [["./franka_move_to_relative", sampleSelf.ip_address,
        pyFloatStr (mkRat 1 20), pyFloatStr 0, pyFloatStr 0]] ∧
    ((1 : ℤ) ≠ 0 →
      print2 "Python has registered a problem with " "./franka_move_to_relative"
        ∈ (move_relative sampleSelf (.num (mkRat 1 20)) (.num 0) (.num 0) 1).prints) :=
  c7_returns_exit_code sampleSelf (.num (mkRat 1 20)) (.num 0) (.num 0) 1
    (mkRat 1 20) 0 0 (by decide)

/-- C8: refuted — the position-test flag does dispatch to `test_position`,
but that function never reaches `get_position`: it calls the nonexistent
method `get_end_effector_pos` and dies with `AttributeError`, printing
nothing; likewise the joint-test flag dispatches to `example_position`,
which dies with `NameError` on the undefined class name `FrankaRos` before
its printing loop.  Both contradict the functions' own docstrings (print
the end-effector position / repeatedly print the joint data), so the code,
not the claim, is at fault. -/
theorem c8_cli_test_modes_crash :
    cliMode false true false = CliMode.positionTest ∧
    cliMode false false true = CliMode.jointTest ∧
    (∀ path, test_position path = .error (.attributeError "get_end_effector_pos")) ∧
    example_position = .error (.nameError "FrankaRos") :=
  ⟨rfl, rfl, fun _ => rfl, rfl⟩

/-- C9: no operation of the controller mutates the instance: after
`get_joint_positions`, `get_position`, `move_relative` or `move_absolute`
— on any inputs and any subprocess behaviour — the stored IP address,
debug flag and working-directory path are exactly those set at
construction. -/
theorem c9_config_unchanged (self : FrankaControl) (out : String)
    (a b c : PyArg) (coords : List PyArg) (ec : ℤ) :
    (get_joint_positions self out).self = self ∧
    (get_position self out).self = self ∧
    (move_relative self a b c ec).self = self ∧
    (move_absolute self coords ec).self = self := by
  refine ⟨rfl, rfl, ?_, ?_⟩
  · unfold move_relative
    split <;> rfl
  · unfold move_absolute
    split
    · rfl
    · split
      · split <;> rfl
      · rfl

/-- C10: a controller constructed with both `__init__` arguments left to
their defaults stores IP address `192.168.0.88` with debugging disabled,
and `move_relative` with all three deltas left to their default `0.0`
invokes the relative-motion executable exactly once, with each delta
formatted as the string `"0.0"`. -/
theorem c10_default_construction (path : String) (ec : ℤ) :
    (initDefault path).ip_address = "192.168.0.88" ∧
    (initDefault path).debug = false ∧
    (move_relative (initDefault path) moveRelativeDefault moveRelativeDefault
        moveRelativeDefault ec).calls =
      [["./franka_move_to_relative", "192.168.0.88", "0.0", "0.0", "0.0"]] := by
  refine ⟨rfl, rfl, ?_⟩
  rfl
